import Mathlib

/-!
# trx-multi: the slot table and worker start-up of rx, the admission client loop of tx

A shallow embedding of the two `main` functions of the repository (src/rx.c and
src/tx.c) together with the properties of the specification that concern them.

Machine integers are mathematical integers, reduced explicitly where the C code
converts or increments them (`toInt32`, `toUInt32`).  Calls into libraries and into
the parts of the repository that are not among the sources (multi.c, defaults.h,
multistructure.h) are inputs of the model: what they return is given by an
environment, what they are called with is recorded in an event trace.
-/

namespace TrxMulti

/-! ## Machine integers -/

/-- Value of a 32 bit two complement C int that receives the integer x (wraparound). -/
def toInt32 (x : Int) : Int := (x + 2147483648) % 4294967296 - 2147483648

/-- Value of a 32 bit C unsigned int that receives the integer x. -/
def toUInt32 (x : Int) : Int := x % 4294967296

/-! ## rx.c: the slot table -/

/-- Modelled from the spec: the Slot record of multistructure.h, a header that is not
among the sources.  The fields are the three that rx.c reads and writes (pid,
portNumber, isFree); the spec names them ownerWorkerId, portNumber and state. -/
structure Slot where
  pid : Int
  portNumber : Int
  isFree : Int
deriving DecidableEq, Repr

/-- The three fields of a Slot, to name the target of a memory access. -/
inductive SlotField
  | pid
  | portNumber
  | isFree
deriving DecidableEq, Repr

/-- Assignment to one slot of the table, slots[i] = f (slots[i]); an index outside
the table leaves it as it is. -/
def writeSlot (slots : List Slot) (i : Nat) (f : Slot → Slot) : List Slot :=
  match slots[i]? with
  | some s => slots.set i (f s)
  | none => slots

/-- The memory malloc hands back for a table of n slots (rx.c line 246): n slots of
unspecified content, given by the function garbage. -/
def mallocTable (garbage : Nat → Slot) (n : Nat) : List Slot :=
  (List.range n).map garbage

/-- The initialisation loop of rx main (rx.c lines 250-256),
for(i=0;i<instances;i++), as a function of the number k of iterations still to run,
the index i, the variable currentPort and the table.  One iteration stores pid,
portNumber and isFree of slots[i] and increments currentPort, an int whose overflow
wraps around.  The index takes the values 0, 1, 2, ... in turn; an overflow of the
index itself, which takes a table of more than 2^31 slots, is not followed. -/
def initLoop : Nat → Nat → Int → List Slot → List Slot
  | 0, _, _, slots => slots
  | k + 1, i, currentPort, slots =>
    let slots1 := writeSlot slots i (fun s => { s with pid := 0 })
    let slots2 := writeSlot slots1 i (fun s => { s with portNumber := currentPort })
    let slots3 := writeSlot slots2 i (fun s => { s with isFree := 1 })
    initLoop k (i + 1) (toInt32 (currentPort + 1)) slots3

/-- The table rx main has built when malloc succeeded: the allocated memory after
the initialisation loop, with int currentPort = port (rx.c lines 246-257). -/
def rxBuildTable (garbage : Nat → Slot) (instances port : Nat) : List Slot :=
  initLoop instances 0 (toInt32 port) (mallocTable garbage instances)

/-! ## rx.c: the worker processes -/

/-- How a process of rx ends, or where it stays for ever. -/
inductive ProcEnd
  /-- The function main returned this value. -/
  | returned (code : Int)
  /-- A call of abort or a failed assert. -/
  | aborted
  /-- An access through the NULL table pointer, or outside the table. -/
  | crashed
  /-- The process stays inside run_rx. -/
  | running
  /-- The process reached the empty for(;;) that follows the spawn loop. -/
  | idle
deriving DecidableEq, Repr

/-- What happens in a worker process of rx once it calls create_rtp_recv (rx.c lines
274-298); these are the outcomes of library calls, an input of the model. -/
inductive WorkerRun
  /-- An abort inside create_rtp_recv, or assert(session != NULL) fails. -/
  | sessionAborts
  /-- The call snd_pcm_open fails: return -1. -/
  | openFails
  /-- The call set_alsa_hw gives -1: return -1. -/
  | hwFails
  /-- The call set_alsa_sw gives -1: return -1. -/
  | swFails
  /-- The receive loop run_rx never returns. -/
  | runsForever
  /-- An assert inside run_rx fails. -/
  | runAborts
  /-- The receive loop run_rx returns (play_one_frame gave -1); closeOk tells whether
  snd_pcm_close succeeds afterwards, abort is called when it does not. -/
  | runReturns (closeOk : Bool)
deriving DecidableEq, Repr

/-- The environment of the rx processes.  A process is named by the slot indices at
which it and its ancestors were forked, most recent first; the server is [].
fork proc i is the result of the fork() the process proc calls at index i: none when
it fails (-1 in proc), some pid when it succeeds, pid > 0 being the identifier of the
child that proc receives (the child itself receives 0).  run proc is what the library
calls do in the worker process proc. -/
structure RxEnv where
  fork : List Nat → Nat → Option Int
  run : List Nat → WorkerRun

/-- Observable steps of the rx processes during and after start-up. -/
inductive RxEvent
  /-- The message printed when malloc gave NULL (rx.c line 259). -/
  | allocFailed
  /-- In proc, fork() at index i gave -1. -/
  | forkFailed (proc : List Nat) (i : Nat)
  /-- In proc, fork() at index i created the process child. -/
  | forked (proc : List Nat) (i : Nat) (child : Int)
  /-- The process proc executes a store to field f of slots[i]. -/
  | write (proc : List Nat) (i : Nat) (f : SlotField) (v : Int)
  /-- The process proc reads field f of slots[i]. -/
  | read (proc : List Nat) (i : Nat) (f : SlotField)
  /-- The process proc, forked for slot i, calls create_rtp_recv(addr, port, jitter). -/
  | session (proc : List Nat) (i : Nat) (port : Int)
  /-- The process proc is over, or stays where it is for ever. -/
  | ended (proc : List Nat) (how : ProcEnd)
deriving DecidableEq, Repr

/-- Outcome of a process that runs the spawn loop: its own copy of the table when it
leaves the loop (none is the NULL pointer), where it ends, and the events of the
process and of all its descendants. -/
structure RxResult where
  table : Option (List Slot)
  status : ProcEnd
  events : List RxEvent
deriving DecidableEq, Repr

/-- The spawn loop of rx main (rx.c lines 264-306), for(i=0;i<instances;i++) followed
by the empty for(;;), run by process proc with k iterations left, at index i, with
its copy slots of the table.  After a fork that succeeds the parent does nothing and
goes on with i + 1; the child (rxpid == 0) stores rxpid in slots[i].pid, creates the
receive session on slots[i].portNumber and runs the receiver; when run_rx returns and
snd_pcm_close succeeds the child leaves the if block and goes on in the same for loop
with i + 1. -/
def spawnLoop (env : RxEnv) : Nat → List Nat → Nat → Option (List Slot) → RxResult
  | 0, _, _, slots => { table := slots, status := .idle, events := [] }
  | k + 1, proc, i, slots =>
    match env.fork proc i with
    | none =>
      let rest := spawnLoop env k proc (i + 1) slots
      { rest with events := .forkFailed proc i :: rest.events }
    | some pid =>
      let me := i :: proc
      let child : List RxEvent :=
        .write me i .pid 0 ::
        match slots with
        | none => [.ended me .crashed]
        | some t =>
          let t1 := writeSlot t i (fun s => { s with pid := 0 })
          match t1[i]? with
          | none => [.ended me .crashed]
          | some s =>
            .read me i .portNumber :: .session me i s.portNumber ::
            match env.run me with
            | .sessionAborts => [.ended me .aborted]
            | .openFails => [.ended me (.returned (-1))]
            | .hwFails => [.ended me (.returned (-1))]
            | .swFails => [.ended me (.returned (-1))]
            | .runsForever => [.ended me .running]
            | .runAborts => [.ended me .aborted]
            | .runReturns false => [.ended me .aborted]
            | .runReturns true =>
              let sub := spawnLoop env k me (i + 1) (some t1)
              sub.events ++ [.ended me sub.status]
      let rest := spawnLoop env k proc (i + 1) slots
      { rest with events := .forked proc i pid :: (child ++ rest.events) }

/-- The function main of rx.c from opus_decoder_create on (lines 240-306), for the
values instances and port of the option variables (unsigned int).  decoderOk and
mallocOk tell whether opus_decoder_create and malloc succeed.  When malloc gives NULL
the message is printed and the run goes on with the NULL pointer. -/
def rxMain (env : RxEnv) (garbage : Nat → Slot) (decoderOk mallocOk : Bool)
    (instances port : Nat) : RxResult :=
  if decoderOk then
    if mallocOk then
      spawnLoop env instances [] 0 (some (rxBuildTable garbage instances port))
    else
      let r := spawnLoop env instances [] 0 none
      { r with events := .allocFailed :: r.events }
  else
    { table := none, status := .returned (-1), events := [] }

/-! ## tx.c: the admission client -/

/-- What happens in the pipeline process of tx, the child of the fork (tx.c lines
254-297); these are the outcomes of library calls, an input of the model. -/
inductive TxRun
  /-- The call opus_encoder_create gives NULL: return -1, before any session. -/
  | encoderFails
  /-- An abort inside create_rtp_send, or assert(session != NULL) fails. -/
  | sessionAborts
  /-- The call snd_pcm_open fails: return -1. -/
  | openFails
  /-- The call set_alsa_hw gives -1: return -1. -/
  | hwFails
  /-- The call set_alsa_sw gives -1: return -1. -/
  | swFails
  /-- The send loop run_tx never returns. -/
  | runsForever
  /-- The send loop run_tx returns -1; closeOk tells whether snd_pcm_close succeeds
  afterwards, abort is called when it does not. -/
  | runReturns (closeOk : Bool)
deriving DecidableEq, Repr

/-- The environment of one tx process: fork n is the value fork() returns to this
process in iteration n of the reply loop (-1 failure, 0 in the new process, else the
identifier of the new process), run n is what the library calls of the pipeline do
when this process is the new one, killFails tells whether kill gives -1. -/
structure TxEnv where
  fork : Nat → Int
  run : Nat → TxRun
  killFails : Bool

/-- Observable steps of a tx process. -/
inductive TxEvent
  /-- The call client_connection_init(addr) that opens the control connection. -/
  | connect (addr : String)
  /-- The call slot_client_ask(mainSock). -/
  | ask
  /-- A reply obtained from the control connection, by slot_client_ask or by
  client_listen. -/
  | recv (p : Int)
  /-- The line "Launching tx session on addr:p" given to log_add. -/
  | logLaunch (addr : String) (p : Int)
  /-- Another line given to log_add. -/
  | log (msg : String)
  /-- A call of fork() and the value it returned. -/
  | fork (ret : Int)
  /-- The line "opus_encoder_create: ..." printed when the encoder is NULL. -/
  | encoderError
  /-- The call create_rtp_send(addr, port). -/
  | session (addr : String) (port : Int)
  /-- The call sleep(secs). -/
  | sleep (secs : Nat)
  /-- The call socket_send(mainSock, msg), msg being the C string passed. -/
  | send (msg : String)
  /-- The call socket_close(mainSock). -/
  | close
  /-- The call kill(txpid, SIGTERM); none when txpid was never assigned. -/
  | kill (pid : Option Int)
deriving DecidableEq, Repr

/-- How a tx process ends, or where it stays for ever. -/
inductive TxEnd
  /-- A return from main; none for return r when r was never assigned. -/
  | returned (code : Option Int)
  /-- A call of abort or a failed assert. -/
  | aborted
  /-- The call exit(errno) after a failed kill. -/
  | exitErrno
  /-- The process stays inside run_tx. -/
  | running
  /-- The process waits in a read for a reply that does not arrive. -/
  | reading
deriving DecidableEq, Repr

/-- The variables of tx main that the reply loop assigns: port (unsigned int), txpid
and r (none while unassigned). -/
structure TxVars where
  port : Int
  txpid : Option Int
  r : Option Int
deriving DecidableEq, Repr

/-- Where one iteration of the reply loop leads. -/
inductive TxStep
  /-- The iteration reached p = client_listen(mainSock) with these variables. -/
  | next (v : TxVars)
  /-- The process ended, or stays for ever, inside the iteration. -/
  | stop (how : TxEnd)
deriving DecidableEq, Repr

/-- Outcome of a tx process: its events and where it ends. -/
structure TxResult where
  events : List TxEvent
  status : TxEnd
deriving DecidableEq, Repr

/-- The pipeline branch of tx main (txpid == 0, tx.c lines 254-297): when the encoder
exists the session is created by create_rtp_send(addr, port), port being the
unsigned variable converted to the int parameter. -/
def txChild (run : TxRun) (addr : String) (v : TxVars) : List TxEvent × TxStep :=
  match run with
  | .encoderFails => ([.encoderError], .stop (.returned (some (-1))))
  | .sessionAborts => ([.session addr (toInt32 v.port)], .stop .aborted)
  | .openFails => ([.session addr (toInt32 v.port)], .stop (.returned (some (-1))))
  | .hwFails => ([.session addr (toInt32 v.port)], .stop (.returned (some (-1))))
  | .swFails => ([.session addr (toInt32 v.port)], .stop (.returned (some (-1))))
  | .runsForever =>
    ([.session addr (toInt32 v.port), .log "Started audio transmission"], .stop .running)
  | .runReturns false =>
    ([.session addr (toInt32 v.port), .log "Started audio transmission"], .stop .aborted)
  | .runReturns true =>
    ([.session addr (toInt32 v.port), .log "Started audio transmission"],
      .next { v with r := some (-1) })

/-- The body of the reply loop of tx main (tx.c lines 245-310) for the reply p, in
iteration n, up to the point where the next reply is read.  The variable wait is the
unsigned option variable (0 is disabled). -/
def txBody (env : TxEnv) (wait : Nat) (addr : String) (n : Nat) (v : TxVars) (p : Int) :
    List TxEvent × TxStep :=
  if 0 < p then
    let txpid := env.fork n
    let v1 : TxVars := { v with port := toUInt32 p, txpid := some txpid }
    if txpid = -1 then
      ([.logLaunch addr p, .fork txpid], .next v1)
    else if txpid = 0 then
      let c := txChild (env.run n) addr v1
      (.logLaunch addr p :: .fork txpid :: c.1, c.2)
    else
      ([.logLaunch addr p, .fork txpid], .next v1)
  else if p = 0 then
    if wait = 0 then
      ([.log "Waiting mode disabled. Start tx with -w option to wait", .close],
        .stop (.returned (some 0)))
    else
      ([.sleep 1, .send "wait"], .next v)
  else
    ([], .next v)

/-- The code of tx main after the reply loop (tx.c lines 314-323). -/
def txAfterLoop (env : TxEnv) (v : TxVars) : TxResult :=
  if env.killFails then
    { events := [.close, .kill v.txpid], status := .exitErrno }
  else
    { events := [.close, .kill v.txpid, .log "Audio transmission finished"],
      status := .returned v.r }

/-- The reply loop of tx main, while(p >= 0), over the replies the process obtains in
order: the first by slot_client_ask, the others by client_listen.  When no further
reply arrives the process stays in the read. -/
def txLoop (env : TxEnv) (wait : Nat) (addr : String) : List Int → Nat → TxVars → TxResult
  | [], _, _ => { events := [], status := .reading }
  | p :: rest, n, v =>
    if p < 0 then
      let r := txAfterLoop env v
      { r with events := .recv p :: r.events }
    else
      match txBody env wait addr n v p with
      | (evs, .stop how) => { events := .recv p :: evs, status := how }
      | (evs, .next v1) =>
        let r := txLoop env wait addr rest (n + 1) v1
        { r with events := .recv p :: (evs ++ r.events) }

/-- The function main of tx.c from client_connection_init on (lines 242-323), for the
values wait, addr and port of the option variables. -/
def txMain (env : TxEnv) (wait : Nat) (addr : String) (port : Nat) (replies : List Int) :
    TxResult :=
  let r := txLoop env wait addr replies 0 { port := port, txpid := none, r := none }
  { r with events := .connect addr :: .ask :: r.events }

/-- Recognises the events that are a reply read from the control connection. -/
def TxEvent.isRecv : TxEvent → Bool
  | .recv _ => true
  | _ => false

/-! ## Concrete inputs -/

/-- Memory content used in the examples: every field of every slot holds junk. -/
def junk : Nat → Slot := fun _ => { pid := 77, portNumber := 88, isFree := 99 }

/-- Every fork succeeds (the child forked at index i by a process of depth d gets
the identifier 1000 + i + 10 * d), the receive loop of the worker of slot 0 returns
and snd_pcm_close succeeds, every other worker stays in its receive loop. -/
def envReturning : RxEnv :=
  { fork := fun proc i => some (1000 + i + 10 * proc.length)
    run := fun proc => if proc = [0] then .runReturns true else .runsForever }

/-- Every fork succeeds with child identifier 1234 and every worker stays in its
receive loop. -/
def envSteady : RxEnv :=
  { fork := fun _ _ => some 1234
    run := fun _ => .runsForever }

/-- A tx process that is always the parent: fork gives 4321, kill succeeds. -/
def txParent : TxEnv :=
  { fork := fun _ => 4321
    run := fun _ => .runsForever
    killFails := false }

/-- A tx process for which every fork fails. -/
def txNoFork : TxEnv :=
  { fork := fun _ => -1
    run := fun _ => .runsForever
    killFails := false }

/-- A tx process that is the pipeline process of its first fork; run_tx returns and
snd_pcm_close succeeds. -/
def txPipeline : TxEnv :=
  { fork := fun _ => 0
    run := fun _ => .runReturns true
    killFails := false }

/-! ## Lemmas on the table -/

/-- C6, at a failing input: two slots, every fork succeeds, the receive loop of the
worker of slot 0 returns.  That worker process goes on in the spawn loop and forks a
worker of its own for slot 1, so two receive sessions are created on the port of
slot 1: one by the child [1] of the server, one by the child [1, 0] of the worker. -/
theorem rx_returned_worker_forks_again :
    RxEvent.forked [0] 1 1011 ∈ (rxMain envReturning junk true true 2 9000).events ∧
    RxEvent.session [1] 1 9001 ∈ (rxMain envReturning junk true true 2 9000).events ∧
    RxEvent.session [1, 0] 1 9001 ∈ (rxMain envReturning junk true true 2 9000).events := by
  decide

/-- C7, at a failing input: one slot, the fork succeeds and the server receives the
worker identifier 1234.  After the spawn loop the pid field of slot 0 in the table of
the server is still 0: the store slots[i].pid = rxpid is executed by the child, on
its own copy, with rxpid = 0. -/
theorem rx_server_pid_stays_zero :
    RxEvent.forked [] 0 1234 ∈ (rxMain envSteady junk true true 1 9000).events ∧
    RxEvent.write [0] 0 SlotField.pid 0 ∈ (rxMain envSteady junk true true 1 9000).events ∧
    (rxMain envSteady junk true true 1 9000).table =
      some [{ pid := 0, portNumber := 9000, isFree := 1 }] := by
  decide

/-- C9, at a failing input: malloc gives NULL for a table of one slot.  The run does
not stop: the message is printed, the server forks the worker of slot 0, which
executes the store slots[0].pid = rxpid through the NULL pointer, and the server
itself reaches the for(;;) after the loop instead of returning a failure. -/
theorem rx_alloc_failure_goes_on :
    rxMain envSteady junk true false 1 9000 =
      { table := none, status := ProcEnd.idle,
        events := [RxEvent.allocFailed, RxEvent.forked [] 0 1234,
          RxEvent.write [0] 0 SlotField.pid 0, RxEvent.ended [0] ProcEnd.crashed] } := by
  decide


/-! ## Lemmas on the reply loop -/

theorem txChild_no_recv (run : TxRun) (addr : String) (v : TxVars) :
    ∀ e ∈ (txChild run addr v).1, e.isRecv = false := by
  intro e he
  cases run with
  | runReturns b => cases b <;> simp [txChild] at he <;> rcases he with he | he <;> subst he <;> rfl
  | encoderFails => simp [txChild] at he; subst he; rfl
  | runsForever => simp [txChild] at he; rcases he with he | he <;> subst he <;> rfl
  | _ => simp [txChild] at he; subst he; rfl

theorem txBody_no_recv (env : TxEnv) (wait : Nat) (addr : String) (n : Nat) (v : TxVars)
    (p : Int) : ∀ e ∈ (txBody env wait addr n v p).1, e.isRecv = false := by
  intro e he
  unfold txBody at he
  split at he
  · simp only at he
    split at he
    · simp at he
      rcases he with he | he <;> subst he <;> rfl
    · split at he
      · simp only [List.mem_cons] at he
        rcases he with he | he | he
        · subst he; rfl
        · subst he; rfl
        · exact txChild_no_recv _ _ _ e he
      · simp at he
        rcases he with he | he <;> subst he <;> rfl
  · split at he
    · split at he
      · simp at he
        rcases he with he | he <;> subst he <;> rfl
      · simp at he
        rcases he with he | he <;> subst he <;> rfl
    · simp at he

theorem txAfterLoop_no_recv (env : TxEnv) (v : TxVars) :
    ∀ e ∈ (txAfterLoop env v).events, e.isRecv = false := by
  intro e he
  unfold txAfterLoop at he
  split at he
  · simp at he
    rcases he with he | he <;> subst he <;> rfl
  · simp at he
    rcases he with he | he | he <;> subst he <;> rfl

theorem split_after_block (blk tail pre post : List TxEvent) (p : Int)
    (hb : ∀ e ∈ blk, e.isRecv = false)
    (h : blk ++ tail = pre ++ TxEvent.recv p :: post) :
    ∃ pre2, tail = pre2 ++ TxEvent.recv p :: post := by
  induction blk generalizing pre with
  | nil => exact ⟨pre, h⟩
  | cons b blk ih =>
    cases pre with
    | nil =>
      simp only [List.cons_append, List.nil_append, List.cons.injEq] at h
      have hr := hb b (List.mem_cons_self _ _)
      rw [h.1] at hr
      cases hr
    | cons c pre =>
      simp only [List.cons_append, List.cons.injEq] at h
      exact ih pre (fun e he => hb e (List.mem_cons_of_mem _ he)) h.2

theorem no_recv_in_block (blk pre post : List TxEvent) (p : Int)
    (hb : ∀ e ∈ blk, e.isRecv = false) (h : blk = pre ++ TxEvent.recv p :: post) : False := by
  have hr := hb (TxEvent.recv p) (by rw [h]; simp)
  cases hr

theorem txLoop_head (env : TxEnv) (wait : Nat) (addr : String) (rs : List Int) (n : Nat)
    (v : TxVars) :
    (txLoop env wait addr rs n v).events = [] ∨
      ∃ q t, (txLoop env wait addr rs n v).events = TxEvent.recv q :: t := by
  cases rs with
  | nil => left; rfl
  | cons r rest =>
    right
    unfold txLoop
    split
    · exact ⟨_, _, rfl⟩
    · split
      · exact ⟨_, _, rfl⟩
      · exact ⟨_, _, rfl⟩

theorem takeWhile_block (blk tail : List TxEvent)
    (hb : ∀ e ∈ blk, e.isRecv = false)
    (ht : tail = [] ∨ ∃ q t, tail = TxEvent.recv q :: t) :
    (blk ++ tail).takeWhile (fun e => !e.isRecv) = blk := by
  induction blk with
  | nil =>
    rcases ht with ht | ⟨q, t, ht⟩
    · subst ht; rfl
    · subst ht; simp [TxEvent.isRecv]
  | cons b blk ih =>
    have hbr := hb b (List.mem_cons_self _ _)
    simp only [List.cons_append, List.takeWhile_cons, hbr, Bool.not_false, if_true]
    rw [ih (fun e he => hb e (List.mem_cons_of_mem _ he))]

theorem txLoop_block (env : TxEnv) (wait : Nat) (addr : String) (rs : List Int) (n : Nat)
    (v : TxVars) (pre post : List TxEvent) (p : Int)
    (h : (txLoop env wait addr rs n v).events = pre ++ TxEvent.recv p :: post) :
    (p < 0 ∧ ∃ v1, post = (txAfterLoop env v1).events ∧
      (txLoop env wait addr rs n v).status = (txAfterLoop env v1).status) ∨
    (0 ≤ p ∧ ∃ m v1 tail, post = (txBody env wait addr m v1 p).1 ++ tail ∧
      (tail = [] ∨ ∃ q t, tail = TxEvent.recv q :: t) ∧
      (∀ how, (txBody env wait addr m v1 p).2 = TxStep.stop how →
        tail = [] ∧ (txLoop env wait addr rs n v).status = how)) := by
  induction rs generalizing n v pre with
  | nil =>
    simp [txLoop] at h
  | cons r rest ih =>
    unfold txLoop at h ⊢
    by_cases hr : r < 0
    · simp only [hr, if_true] at h ⊢
      cases pre with
      | nil =>
        simp only [List.nil_append, List.cons.injEq, TxEvent.recv.injEq] at h
        left
        rw [← h.1]
        exact ⟨hr, v, h.2.symm, rfl⟩
      | cons c pre =>
        simp only [List.cons_append, List.cons.injEq] at h
        exact (no_recv_in_block _ _ _ _ (txAfterLoop_no_recv env v) h.2).elim
    · simp only [hr, if_false] at h ⊢
      cases hb : txBody env wait addr n v r with
      | mk evs st =>
        have hnr : ∀ e ∈ evs, e.isRecv = false := by
          have := txBody_no_recv env wait addr n v r
          rw [hb] at this
          exact this
        cases st with
        | stop how =>
          simp only [hb] at h ⊢
          cases pre with
          | nil =>
            simp only [List.nil_append, List.cons.injEq, TxEvent.recv.injEq] at h
            right
            rw [← h.1]
            refine ⟨by omega, n, v, [], ?_, Or.inl rfl, ?_⟩
            · rw [hb]; simp [h.2]
            · intro how2 hh
              rw [hb] at hh
              simp only [TxStep.stop.injEq] at hh
              exact ⟨rfl, hh⟩
          | cons c pre =>
            simp only [List.cons_append, List.cons.injEq] at h
            exact (no_recv_in_block _ _ _ _ hnr h.2).elim
        | next v1 =>
          simp only [hb] at h ⊢
          cases pre with
          | nil =>
            simp only [List.nil_append, List.cons.injEq, TxEvent.recv.injEq] at h
            right
            rw [← h.1]
            refine ⟨by omega, n, v, (txLoop env wait addr rest (n + 1) v1).events, ?_,
              txLoop_head _ _ _ _ _ _, ?_⟩
            · rw [hb]; exact h.2.symm
            · intro how2 hh
              rw [hb] at hh
              cases hh
          | cons c pre =>
            simp only [List.cons_append, List.cons.injEq] at h
            obtain ⟨pre2, hpre2⟩ := split_after_block _ _ _ _ _ hnr h.2
            rcases ih (n + 1) v1 pre2 hpre2 with hneg | hpos
            · left
              exact hneg
            · right
              exact hpos

theorem txMain_block (env : TxEnv) (wait : Nat) (addr : String) (port : Nat)
    (replies : List Int) (pre post : List TxEvent) (p : Int)
    (h : (txMain env wait addr port replies).events = pre ++ TxEvent.recv p :: post) :
    (p < 0 ∧ ∃ v1, post = (txAfterLoop env v1).events ∧
      (txMain env wait addr port replies).status = (txAfterLoop env v1).status) ∨
    (0 ≤ p ∧ ∃ m v1 tail, post = (txBody env wait addr m v1 p).1 ++ tail ∧
      (tail = [] ∨ ∃ q t, tail = TxEvent.recv q :: t) ∧
      (∀ how, (txBody env wait addr m v1 p).2 = TxStep.stop how →
        tail = [] ∧ (txMain env wait addr port replies).status = how)) := by
  have hsplit : ∃ pre2, (txLoop env wait addr replies 0
      { port := port, txpid := none, r := none }).events = pre2 ++ TxEvent.recv p :: post := by
    apply split_after_block [TxEvent.connect addr, TxEvent.ask] _ pre post p
    · intro e he
      simp at he
      rcases he with he | he <;> subst he <;> rfl
    · exact h
  obtain ⟨pre2, hpre2⟩ := hsplit
  exact txLoop_block env wait addr replies 0 _ pre2 post p hpre2

theorem txChild_no_send (run : TxRun) (addr : String) (v : TxVars) (m : String) :
    TxEvent.send m ∉ (txChild run addr v).1 := by
  cases run with
  | runReturns b => cases b <;> simp [txChild]
  | _ => simp [txChild]

theorem txBody_no_send (env : TxEnv) (wait : Nat) (addr : String) (n : Nat) (v : TxVars)
    (p : Int) (hp : 0 < p ∨ wait = 0) (m : String) :
    TxEvent.send m ∉ (txBody env wait addr n v p).1 := by
  unfold txBody
  split
  · simp only
    split
    · simp
    · split
      · simp [txChild_no_send]
      · simp
  · split
    · split
      · simp
      · rcases hp with hp | hp
        · omega
        · contradiction
    · simp

theorem txAfterLoop_no_send (env : TxEnv) (v : TxVars) (m : String) :
    TxEvent.send m ∉ (txAfterLoop env v).events := by
  unfold txAfterLoop
  split <;> simp

theorem txLoop_no_send (env : TxEnv) (addr : String) (rs : List Int) (n : Nat) (v : TxVars)
    (m : String) : TxEvent.send m ∉ (txLoop env 0 addr rs n v).events := by
  induction rs generalizing n v with
  | nil => simp [txLoop]
  | cons r rest ih =>
    unfold txLoop
    split
    · simp [txAfterLoop_no_send]
    · have hb := txBody_no_send env 0 addr n v r (Or.inr rfl) m
      split
      · rename_i heq
        rw [heq] at hb
        simpa using hb
      · rename_i heq
        rw [heq] at hb
        simp only [List.mem_cons, List.mem_append, not_or]
        exact ⟨by simp, hb, ih _ _⟩

theorem txBody_pos (env : TxEnv) (wait : Nat) (addr : String) (n : Nat) (v : TxVars)
    (p : Int) (hp : 0 < p) (hmax : p < 2147483648) :
    ∃ rest, (txBody env wait addr n v p).1 =
        TxEvent.logLaunch addr p :: TxEvent.fork (env.fork n) :: rest ∧
      (∀ a q, TxEvent.session a q ∈ (txBody env wait addr n v p).1 → a = addr ∧ q = p) ∧
      (env.fork n = 0 →
        (∃ rest2, rest = TxEvent.encoderError :: rest2) ∨
          ∃ rest2, rest = TxEvent.session addr p :: rest2) := by
  have hconv : toInt32 (toUInt32 p) = p := by
    unfold toInt32 toUInt32
    omega
  unfold txBody
  simp only [hp, if_true]
  by_cases h1 : env.fork n = -1
  · simp only [h1, if_true]
    refine ⟨[], rfl, ?_, ?_⟩
    · intro a q hq
      simp at hq
    · intro h0
      omega
  · simp only [h1, if_false]
    by_cases h0 : env.fork n = 0
    · simp only [h0, if_true]
      refine ⟨_, rfl, ?_, ?_⟩
      · intro a q hq
        simp only [List.mem_cons] at hq
        rcases hq with hq | hq | hq
        · cases hq
        · cases hq
        · generalize env.run n = run at hq
          cases run with
          | runReturns b =>
            cases b <;> simp [txChild, hconv] at hq <;> exact ⟨hq.1, hq.2⟩
          | _ => simp [txChild, hconv] at hq <;> exact ⟨hq.1, hq.2⟩
      · intro _
        cases env.run n with
        | runReturns b => cases b <;> simp [txChild, hconv]
        | _ => simp [txChild, hconv]
    · simp only [h0, if_false]
      refine ⟨[], rfl, ?_, ?_⟩
      · intro a q hq
        simp at hq
      · intro h
        exact h.elim


/-! ## tx.c: the claims -/

/-- C3: port hand-off in tx main.  Whenever the process reads a reply p > 0 (p a C
int) from the control connection opened to addr, the steps up to the next read start
with the launch line for addr and p and the fork; every media session created in
these steps is created by create_rtp_send with the address addr and the port p,
whatever the value of the port option; and in the process where fork returned 0 the
step after the fork is the encoder error or the creation of that session. -/
theorem tx_port_handoff (env : TxEnv) (wait : Nat) (addr : String) (port : Nat)
    (replies : List Int) (pre post : List TxEvent) (p : Int)
    (hp : 0 < p) (hmax : p < 2147483648)
    (h : (txMain env wait addr port replies).events = pre ++ TxEvent.recv p :: post) :
    (txMain env wait addr port replies).events.head? = some (TxEvent.connect addr) ∧
    (∀ a q, TxEvent.session a q ∈ post.takeWhile (fun e => !e.isRecv) → a = addr ∧ q = p) ∧
    ∃ ret rest, post = TxEvent.logLaunch addr p :: TxEvent.fork ret :: rest ∧
      (ret = 0 → (∃ rest2, rest = TxEvent.encoderError :: rest2) ∨
        ∃ rest2, rest = TxEvent.session addr p :: rest2) := by
  refine ⟨rfl, ?_⟩
  rcases txMain_block env wait addr port replies pre post p h with hneg | hpos
  · omega
  · obtain ⟨_, m, v1, tail, hpost, htail, _⟩ := hpos
    obtain ⟨rest, hrest, hsess, hchild⟩ := txBody_pos env wait addr m v1 p hp hmax
    constructor
    · intro a q hq
      rw [hpost, takeWhile_block _ _ (txBody_no_recv env wait addr m v1 p) htail] at hq
      exact hsess a q hq
    · refine ⟨env.fork m, rest ++ tail, ?_, ?_⟩
      · rw [hpost, hrest]
        rfl
      · intro h0
        rcases hchild h0 with ⟨rest2, h2⟩ | ⟨rest2, h2⟩
        · left
          exact ⟨rest2 ++ tail, by rw [h2]; rfl⟩
        · right
          exact ⟨rest2 ++ tail, by rw [h2]; rfl⟩

/-- Witness of C3: the pipeline process of a client started with port option 1350
that reads the reply 9001 and then -1. -/
theorem tx_port_handoff_witness :
    (0 : Int) < 9001 ∧ (9001 : Int) < 2147483648 ∧
    (txMain txPipeline 1 "10.0.0.1" 1350 [9001, -1]).events =
      [TxEvent.connect "10.0.0.1", TxEvent.ask] ++ TxEvent.recv 9001 ::
        [TxEvent.logLaunch "10.0.0.1" 9001, TxEvent.fork 0,
          TxEvent.session "10.0.0.1" 9001, TxEvent.log "Started audio transmission",
          TxEvent.recv (-1), TxEvent.close, TxEvent.kill (some 0),
          TxEvent.log "Audio transmission finished"] ∧
    (∀ a q, TxEvent.session a q ∈
      ([TxEvent.logLaunch "10.0.0.1" 9001, TxEvent.fork 0,
          TxEvent.session "10.0.0.1" 9001, TxEvent.log "Started audio transmission",
          TxEvent.recv (-1), TxEvent.close, TxEvent.kill (some 0),
          TxEvent.log "Audio transmission finished"]).takeWhile (fun e => !e.isRecv) →
      a = "10.0.0.1" ∧ q = 9001) :=
  ⟨by decide, by decide, by decide,
    (tx_port_handoff txPipeline 1 "10.0.0.1" 1350 [9001, -1]
      [TxEvent.connect "10.0.0.1", TxEvent.ask]
      [TxEvent.logLaunch "10.0.0.1" 9001, TxEvent.fork 0,
        TxEvent.session "10.0.0.1" 9001, TxEvent.log "Started audio transmission",
        TxEvent.recv (-1), TxEvent.close, TxEvent.kill (some 0),
        TxEvent.log "Audio transmission finished"]
      9001 (by decide) (by decide) (by decide)).2.1⟩

/-- C4: keep-alive polling in tx main.  With waiting enabled (wait is not 0),
whenever the process reads the reply 0 the steps that follow are sleep(1), then one
socket_send of the text "wait", then the next read (or nothing, when no reply
arrives any more); and between the read of a reply p > 0 and the next read nothing is
sent on the control connection. -/
theorem tx_keepalive_polling (env : TxEnv) (wait : Nat) (addr : String) (port : Nat)
    (replies : List Int) (pre post : List TxEvent) (p : Int) (hw : wait ≠ 0)
    (h : (txMain env wait addr port replies).events = pre ++ TxEvent.recv p :: post) :
    (p = 0 → ∃ tail, post = TxEvent.sleep 1 :: TxEvent.send "wait" :: tail ∧
      (tail = [] ∨ ∃ q t, tail = TxEvent.recv q :: t)) ∧
    (0 < p → ∀ m, TxEvent.send m ∉ post.takeWhile (fun e => !e.isRecv)) := by
  rcases txMain_block env wait addr port replies pre post p h with hneg | hpos
  · exact ⟨fun h0 => by omega, fun h0 => by omega⟩
  · obtain ⟨_, m, v1, tail, hpost, htail, _⟩ := hpos
    constructor
    · intro h0
      subst h0
      refine ⟨tail, ?_, htail⟩
      rw [hpost]
      simp [txBody, hw]
    · intro h0 msg
      rw [hpost, takeWhile_block _ _ (txBody_no_recv env wait addr m v1 p) htail]
      exact txBody_no_send env wait addr m v1 p (Or.inl h0) msg

/-- Witness of C4: a waiting client that reads 0, 0, 9001 and then -1. -/
theorem tx_keepalive_polling_witness :
    (1 : Nat) ≠ 0 ∧
    (txMain txParent 1 "10.0.0.1" 1350 [0, 0, 9001, -1]).events =
      [TxEvent.connect "10.0.0.1", TxEvent.ask] ++ TxEvent.recv 0 ::
        [TxEvent.sleep 1, TxEvent.send "wait", TxEvent.recv 0, TxEvent.sleep 1,
          TxEvent.send "wait", TxEvent.recv 9001, TxEvent.logLaunch "10.0.0.1" 9001,
          TxEvent.fork 4321, TxEvent.recv (-1), TxEvent.close, TxEvent.kill (some 4321),
          TxEvent.log "Audio transmission finished"] ∧
    ((0 : Int) = 0 → ∃ tail,
      [TxEvent.sleep 1, TxEvent.send "wait", TxEvent.recv 0, TxEvent.sleep 1,
          TxEvent.send "wait", TxEvent.recv 9001, TxEvent.logLaunch "10.0.0.1" 9001,
          TxEvent.fork 4321, TxEvent.recv (-1), TxEvent.close, TxEvent.kill (some 4321),
          TxEvent.log "Audio transmission finished"] =
        TxEvent.sleep 1 :: TxEvent.send "wait" :: tail ∧
      (tail = [] ∨ ∃ q t, tail = TxEvent.recv q :: t)) :=
  ⟨by decide, by decide,
    (tx_keepalive_polling txParent 1 "10.0.0.1" 1350 [0, 0, 9001, -1]
      [TxEvent.connect "10.0.0.1", TxEvent.ask]
      [TxEvent.sleep 1, TxEvent.send "wait", TxEvent.recv 0, TxEvent.sleep 1,
        TxEvent.send "wait", TxEvent.recv 9001, TxEvent.logLaunch "10.0.0.1" 9001,
        TxEvent.fork 4321, TxEvent.recv (-1), TxEvent.close, TxEvent.kill (some 4321),
        TxEvent.log "Audio transmission finished"]
      0 (by decide) (by decide)).1⟩

/-- C5: wait opt-out in tx main.  With waiting disabled (wait is 0), for every
sequence of replies the process sends nothing on the control connection, so never the
token "wait"; and whenever it reads the reply 0, what follows is the log line and
socket_close and nothing else, no further read, and the process returns 0 from
main. -/
theorem tx_wait_disabled (env : TxEnv) (addr : String) (port : Nat) (replies : List Int) :
    (∀ m, TxEvent.send m ∉ (txMain env 0 addr port replies).events) ∧
    (∀ pre post, (txMain env 0 addr port replies).events = pre ++ TxEvent.recv 0 :: post →
      post = [TxEvent.log "Waiting mode disabled. Start tx with -w option to wait",
        TxEvent.close] ∧
      (txMain env 0 addr port replies).status = TxEnd.returned (some 0)) := by
  constructor
  · intro m hm
    simp only [txMain, List.mem_cons] at hm
    rcases hm with hm | hm | hm
    · cases hm
    · cases hm
    · exact txLoop_no_send env addr replies 0 _ m hm
  · intro pre post h
    rcases txMain_block env 0 addr port replies pre post 0 h with hneg | hpos
    · omega
    · obtain ⟨_, m, v1, tail, hpost, _, hstop⟩ := hpos
      have hbody : txBody env 0 addr m v1 0 =
          ([TxEvent.log "Waiting mode disabled. Start tx with -w option to wait",
            TxEvent.close], TxStep.stop (TxEnd.returned (some 0))) := by
        simp [txBody]
      obtain ⟨htail, hstatus⟩ := hstop _ (by rw [hbody])
      refine ⟨?_, hstatus⟩
      rw [hpost, hbody, htail]
      rfl

/-- Witness of C5: a client without the wait option that reads 9001, 0 and would
read 5 next. -/
theorem tx_wait_disabled_witness :
    (txMain txParent 0 "10.0.0.1" 1350 [9001, 0, 5]).events =
      [TxEvent.connect "10.0.0.1", TxEvent.ask, TxEvent.recv 9001,
        TxEvent.logLaunch "10.0.0.1" 9001, TxEvent.fork 4321] ++ TxEvent.recv 0 ::
        [TxEvent.log "Waiting mode disabled. Start tx with -w option to wait",
          TxEvent.close] ∧
    (txMain txParent 0 "10.0.0.1" 1350 [9001, 0, 5]).status = TxEnd.returned (some 0) :=
  ⟨by decide,
    ((tx_wait_disabled txParent "10.0.0.1" 1350 [9001, 0, 5]).2
      [TxEvent.connect "10.0.0.1", TxEvent.ask, TxEvent.recv 9001,
        TxEvent.logLaunch "10.0.0.1" 9001, TxEvent.fork 4321]
      [TxEvent.log "Waiting mode disabled. Start tx with -w option to wait",
        TxEvent.close]
      (by decide)).2⟩

/-- C10, at failing inputs: after the reply loop kill(txpid, SIGTERM) is called with
whatever txpid holds.  When the first reply is negative no pipeline was started and
txpid was never assigned, yet kill is called; when the only fork failed kill is called
with -1; in the pipeline process itself, when run_tx has returned, kill is called
with 0. -/
theorem tx_kill_without_pipeline :
    (txMain txParent 0 "10.0.0.1" 1350 [-1]).events =
      [TxEvent.connect "10.0.0.1", TxEvent.ask, TxEvent.recv (-1), TxEvent.close,
        TxEvent.kill none, TxEvent.log "Audio transmission finished"] ∧
    (txMain txNoFork 0 "10.0.0.1" 1350 [7, -1]).events =
      [TxEvent.connect "10.0.0.1", TxEvent.ask, TxEvent.recv 7,
        TxEvent.logLaunch "10.0.0.1" 7, TxEvent.fork (-1), TxEvent.recv (-1),
        TxEvent.close, TxEvent.kill (some (-1)),
        TxEvent.log "Audio transmission finished"] ∧
    (txMain txPipeline 0 "10.0.0.1" 1350 [7, -1]).events =
      [TxEvent.connect "10.0.0.1", TxEvent.ask, TxEvent.recv 7,
        TxEvent.logLaunch "10.0.0.1" 7, TxEvent.fork 0, TxEvent.session "10.0.0.1" 7,
        TxEvent.log "Started audio transmission", TxEvent.recv (-1), TxEvent.close,
        TxEvent.kill (some 0), TxEvent.log "Audio transmission finished"] := by
  decide

end TrxMulti
